import Mathlib

/-!
Shallow embedding of `app.py` from the smoking-drinking-predictor repository.

The script loads a serialized smoking classifier and feature scaler, trains a
tiny inline drinking classifier on four hard-coded rows, reads four numeric
sidebar inputs, and renders a label and confidence for each target.  Numeric
values are modelled as rationals; Python exceptions as `Except` errors.
-/

/-- The four sidebar inputs (app.py lines 49-52): an age slider, a BMI
slider, and number fields for gamma-GTP and hemoglobin. -/
structure Inputs where
  age : ℚ
  bmi : ℚ
  gamma_GTP : ℚ
  hemoglobin : ℚ
deriving DecidableEq, Repr

/-- The declared widget ranges (app.py lines 49-52): age 10-100,
BMI 10.0-40.0, gamma-GTP 0.0-500.0, hemoglobin 5.0-20.0. -/
def inRanges (i : Inputs) : Prop :=
  10 ≤ i.age ∧ i.age ≤ 100 ∧ 10 ≤ i.bmi ∧ i.bmi ≤ 40 ∧
    0 ≤ i.gamma_GTP ∧ i.gamma_GTP ≤ 500 ∧ 5 ≤ i.hemoglobin ∧ i.hemoglobin ≤ 20

instance (i : Inputs) : Decidable (inRanges i) := by
  unfold inRanges; infer_instance

/-- The default widget values 30, 22.0, 30.0, 13.0 (app.py lines 49-52);
each is an integral number. -/
def default_inputs : Inputs := ⟨30, 22, 30, 13⟩

/-- The one-row DataFrame `input_data` built from the sidebar values
(app.py lines 56-61), kept as the ordered list of (column, value) pairs. -/
def input_data (i : Inputs) : List (String × ℚ) :=
  [("age", i.age), ("BMI", i.bmi), ("gamma_GTP", i.gamma_GTP), ("hemoglobin", i.hemoglobin)]

/-- File used for the smoking model (app.py line 12). -/
def smoking_model_path : String := "rf_smoking_model.pkl"

/-- File used for the scaler (app.py line 13). -/
def scaler_path : String := "scaler.pkl"

/-- All serialized artifact files the script attempts to load
(app.py lines 12-18).  The drinking model is trained inline and is not
loaded from any file. -/
def artifact_paths : List String := [smoking_model_path, scaler_path]

/-- The user-facing message shown when an artifact file is missing
(app.py line 21). -/
def load_error_message : String :=
  "❌ Model or scaler files not found. Please make sure \x27rf_smoking_model.pkl\x27 and \x27scaler.pkl\x27 exist."

/-- Python exceptions relevant to the artifact-load site: `joblib.load`
raises `FileNotFoundError` when the file is missing; deserializing a corrupt
or incompatible file raises some other exception class. -/
inductive PyExn where
  | fileNotFoundError (path : String)
  | otherError (msg : String)
deriving DecidableEq, Repr

/-- Modelled from the spec: "ScalerArtifact: a pre-fit affine/standardizing
transform exposing transform(row) → row".  The serialized `scaler.pkl` is an
artifact of this repository that is not under src/, so the scaler is
modelled as a per-column affine standardization. -/
structure Scaler where
  mean : List ℚ
  scale : List ℚ

/-- `scaler.transform(input_data)` (app.py line 65): standardizes each column
of the one-row DataFrame in order; the result is a plain numeric row (a numpy
array carries no column labels). -/
def Scaler.transform (s : Scaler) (df : List (String × ℚ)) : List ℚ :=
  List.zipWith (fun v p => (v - p.1) / p.2) (df.map Prod.snd) (s.mean.zip s.scale)

/-- Modelled from the spec: "ClassifierArtifact: an opaque pre-fit binary
classifier ... polymorphic only over a two-method capability set
\x7bpredict(row) → label, predict_proba(row) → probability vector\x7d".
`rf_smoking_model.pkl` is an artifact of this repository that is not under
src/; a binary classifier is any assignment of a two-class probability
vector to each input, `predict` returning the argmax class. -/
structure BinaryClassifier (α : Type) where
  proba0 : α → ℚ
  proba1 : α → ℚ
  nonneg0 : ∀ x, 0 ≤ proba0 x
  nonneg1 : ∀ x, 0 ≤ proba1 x
  sum_one : ∀ x, proba0 x + proba1 x = 1

/-- `predict_proba(x)[0]`: the two-class probability vector. -/
def BinaryClassifier.predict_proba {α : Type} (c : BinaryClassifier α) (x : α) : ℚ × ℚ :=
  (c.proba0 x, c.proba1 x)

/-- `predict(x)[0]`: the argmax class of the probability vector (numpy argmax
returns the first maximal index, so a tie goes to class 0). -/
def BinaryClassifier.predict {α : Type} (c : BinaryClassifier α) (x : α) : ℕ :=
  if c.proba0 x < c.proba1 x then 1 else 0

/-- `predict_proba(x)[0].max()` (app.py lines 69 and 73): the maximum entry
of the two-class probability vector, displayed as the confidence. -/
def BinaryClassifier.probaMax {α : Type} (c : BinaryClassifier α) (x : α) : ℚ :=
  max (c.predict_proba x).1 (c.predict_proba x).2

/-- The smoking model consumes the scaled numeric row (app.py line 68). -/
abbrev RfModel := BinaryClassifier (List ℚ)

/-- The drinking model consumes the raw DataFrame row (app.py line 72). -/
abbrev GbModel := BinaryClassifier (List (String × ℚ))

/-- Outcome of the artifact-load block (app.py lines 16-22). -/
inductive LoadOutcome where
  | loaded (rf : RfModel) (sc : Scaler)
  | errorShown (msg : String)
  | uncaught (e : PyExn)

/-- The try/except around the two `joblib.load` calls (app.py lines 16-22):
the smoking model is loaded first, then the scaler; only `FileNotFoundError`
is caught, setting `model_loaded = False` and showing the error message. -/
def loadPhase (loadRf : Except PyExn RfModel) (loadScaler : Except PyExn Scaler) :
    LoadOutcome :=
  match loadRf with
  | .error (.fileNotFoundError _) => .errorShown load_error_message
  | .error e => .uncaught e
  | .ok rf =>
    match loadScaler with
    | .error (.fileNotFoundError _) => .errorShown load_error_message
    | .error e => .uncaught e
    | .ok sc => .loaded rf sc

/-- The hard-coded five-column DataFrame of the inline drinking model
(app.py lines 27-33), stored column-wise. -/
def inline_df : List (String × List ℚ) :=
  [("age", [25, 40, 35, 50]),
   ("BMI", [22.0, 30.5, 27.8, 24.2]),
   ("gamma_GTP", [30, 120, 85, 50]),
   ("hemoglobin", [13.2, 14.5, 13.8, 14.1]),
   ("DRK_YN", [1, 1, 0, 0])]

/-- Column selection `df[[...]]` (app.py line 34). -/
def colsSelect (df : List (String × List ℚ)) (cols : List String) :
    List (String × List ℚ) :=
  cols.map (fun c => (c, (df.lookup c).getD []))

/-- The fixed feature column order used both for the inline training matrix
(app.py line 34) and for `input_data` (app.py lines 56-61). -/
def feature_columns : List String := ["age", "BMI", "gamma_GTP", "hemoglobin"]

/-- `X = df[["age", "BMI", "gamma_GTP", "hemoglobin"]]` (app.py line 34). -/
def inline_X : List (String × List ℚ) := colsSelect inline_df feature_columns

/-- `y = df["DRK_YN"]` (app.py line 35). -/
def inline_y : List ℚ := (inline_df.lookup "DRK_YN").getD []

/-- The fixed hyperparameters of the inline model (app.py line 36). -/
structure GBParams where
  n_estimators : ℕ
  max_depth : ℕ
  random_state : ℕ
deriving DecidableEq, Repr

/-- `GradientBoostingClassifier(n_estimators=10, max_depth=2, random_state=42)`. -/
def inline_params : GBParams := ⟨10, 2, 42⟩

/-- `train_inline_drinking_model` (app.py lines 26-38): builds the hard-coded
DataFrame, selects the feature matrix and labels, and fits the classifier.
The sklearn fitting procedure is third-party code, kept abstract as the
parameter `fit`; with a fixed `random_state` it is a deterministic function
of the data and hyperparameters, which is what a Lean function is. -/
def train_inline_drinking_model
    (fit : List (String × List ℚ) → List ℚ → GBParams → GbModel) : GbModel :=
  fit inline_X inline_y inline_params

/-- One call of the `@st.cache_resource`-decorated function within a session
(app.py lines 25 and 40): if the cache already holds a model, return it
without refitting; otherwise run the body, cache the result and return it.
The last component counts how many times the body (the fit) ran. -/
def cacheResourceCall (fit : List (String × List ℚ) → List ℚ → GBParams → GbModel)
    (cache : Option GbModel) : GbModel × Option GbModel × ℕ :=
  match cache with
  | some m => (m, some m, 0)
  | none => (train_inline_drinking_model fit, some (train_inline_drinking_model fit), 1)

/-- A Streamlit session re-runs the whole script on every interaction; the
`st.cache_resource` cache persists across the re-runs of one session.
`sessionTrace fit n cache` yields the model each of the `n` re-runs sees,
together with the total number of times the fit body ran. -/
def sessionTrace (fit : List (String × List ℚ) → List ℚ → GBParams → GbModel) :
    ℕ → Option GbModel → List GbModel × ℕ
  | 0, _ => ([], 0)
  | n + 1, cache =>
    let r := cacheResourceCall fit cache
    let rest := sessionTrace fit n r.2.1
    (r.1 :: rest.1, r.2.2 + rest.2)

/-- The models `gb_model` seen by the `n` re-runs of a fresh session. -/
def sessionModels (fit : List (String × List ℚ) → List ℚ → GBParams → GbModel)
    (n : ℕ) : List GbModel :=
  (sessionTrace fit n none).1

/-- How many times the inline fit ran during a fresh session of `n` re-runs. -/
def sessionFitCount (fit : List (String × List ℚ) → List ℚ → GBParams → GbModel)
    (n : ℕ) : ℕ :=
  (sessionTrace fit n none).2

/-- The four local values computed inside the try block (app.py lines 68-73). -/
structure PredValues where
  smoking_pred : ℕ
  smoking_prob : ℚ
  drinking_pred : ℕ
  drinking_prob : ℚ
deriving DecidableEq, Repr

/-- The five library calls inside the try block (app.py lines 65-73), each of
which may raise; an exception is modelled as an `Except.error` carrying the
exception's text. -/
structure FallibleSteps where
  transform : List (String × ℚ) → Except String (List ℚ)
  rf_predict : List ℚ → Except String ℕ
  rf_predict_proba : List ℚ → Except String (ℚ × ℚ)
  gb_predict : List (String × ℚ) → Except String ℕ
  gb_predict_proba : List (String × ℚ) → Except String (ℚ × ℚ)

/-- The value computations of the try block (app.py lines 65-73), in program
order: scale the input, predict smoking on the scaled row, predict drinking
on the raw row, and take each probability vector's maximum.  The first
statement to raise aborts the rest of the block with its exception. -/
def computePreds (a : FallibleSteps) (df : List (String × ℚ)) :
    Except String PredValues :=
  match a.transform df with
  | .error e => .error e
  | .ok input_scaled =>
    match a.rf_predict input_scaled with
    | .error e => .error e
    | .ok smoking_pred =>
      match a.rf_predict_proba input_scaled with
      | .error e => .error e
      | .ok smoking_probs =>
        match a.gb_predict df with
        | .error e => .error e
        | .ok drinking_pred =>
          match a.gb_predict_proba df with
          | .error e => .error e
          | .ok drinking_probs =>
            .ok ⟨smoking_pred, max smoking_probs.1 smoking_probs.2,
                 drinking_pred, max drinking_probs.1 drinking_probs.2⟩

/-- One `st.metric` call: label, value and delta strings. -/
structure Metric where
  label : String
  value : String
  delta : String
deriving DecidableEq, Repr

/-- Round half to even (the rounding used by Python string formatting). -/
def roundHalfEven (q : ℚ) : ℤ :=
  let f := q.floor
  if q - f < 1 / 2 then f
  else if 1 / 2 < q - f then f + 1
  else if f % 2 = 0 then f else f + 1

/-- Python's `"%.2f"` formatting: two digits after the decimal point. -/
def fmt2 (q : ℚ) : String :=
  let n := roundHalfEven (q * 100)
  let sign := if n < 0 then "-" else ""
  let a := n.natAbs
  let d := a % 100
  sign ++ toString (a / 100) ++ "." ++ (if d < 10 then "0" else "") ++ toString d

/-- The smoking-status metric (app.py lines 80-84). -/
def smokingMetric (v : PredValues) : Metric :=
  ⟨"Smoking Status",
   if v.smoking_pred == 1 then "🚬 Smoker" else "✅ Non-Smoker",
   "Confidence: " ++ fmt2 v.smoking_prob⟩

/-- The drinking-status metric (app.py lines 87-91). -/
def drinkingMetric (v : PredValues) : Metric :=
  ⟨"Drinking Status",
   if v.drinking_pred == 1 then "🍷 Drinker" else "✅ Non-Drinker",
   "Confidence: " ++ fmt2 v.drinking_prob⟩

/-- What the prediction section renders: either the two metrics or the
generic error message of the broad handler. -/
inductive Rendered where
  | results (v : PredValues) (smoking drinking : Metric)
  | predictionError (msg : String)

/-- The generic message of the broad handler (app.py line 97), with the
exception's text interpolated. -/
def prediction_error_text (e : String) : String :=
  "⚠️ Error during prediction: " ++ e

/-- The try/except around the transform/predict/render sequence
(app.py lines 63-97): any exception raised by a step is caught by the single
`except Exception` handler and rendered as the generic message. -/
def predictionBlock (a : FallibleSteps) (df : List (String × ℚ)) : Rendered :=
  match computePreds a df with
  | .ok v => .results v (smokingMetric v) (drinkingMetric v)
  | .error e => .predictionError (prediction_error_text e)

/-- The steps as performed by in-memory artifacts whose methods are total
functions: the scaler transform feeds the smoking model, the raw DataFrame
feeds the drinking model (app.py lines 65-73). -/
def FallibleSteps.ofArtifacts (sc : Scaler) (rf : RfModel) (gb : GbModel) :
    FallibleSteps :=
  ⟨fun df => .ok (sc.transform df),
   fun xs => .ok (rf.predict xs),
   fun xs => .ok (rf.predict_proba xs),
   fun df => .ok (gb.predict df),
   fun df => .ok (gb.predict_proba df)⟩

/-- The observable outcome of one run of the whole script body. -/
inductive ScriptOutput where
  | loadError (msg : String)
  | predicted (r : Rendered)
  | crashed (e : PyExn)

/-- One full run of the script body (app.py lines 16-97): load the artifacts,
and only when `model_loaded` is true build `input_data` from the sidebar
values and run the prediction block. -/
def runScript (loadRf : Except PyExn RfModel) (loadScaler : Except PyExn Scaler)
    (gb : GbModel) (i : Inputs) : ScriptOutput :=
  match loadPhase loadRf loadScaler with
  | .uncaught e => .crashed e
  | .errorShown msg => .loadError msg
  | .loaded rf sc => .predicted (predictionBlock (.ofArtifacts sc rf gb) (input_data i))

/-- Whether a script run reached the results rendering. -/
def ScriptOutput.isOkPrediction : ScriptOutput → Bool
  | .predicted (.results _ _ _) => true
  | _ => false

/-- The eight boundary inputs of the declared widget ranges, the other three
fields at their defaults. -/
def boundary_inputs : List Inputs :=
  [⟨10, 22, 30, 13⟩, ⟨100, 22, 30, 13⟩,
   ⟨30, 10, 30, 13⟩, ⟨30, 40, 30, 13⟩,
   ⟨30, 22, 0, 13⟩, ⟨30, 22, 500, 13⟩,
   ⟨30, 22, 30, 5⟩, ⟨30, 22, 30, 20⟩]

/-- Boolean form of the declared-range check. -/
def inRangesB (i : Inputs) : Bool := decide (inRanges i)

/-- A concrete binary classifier assigning the probability vector (1/4, 3/4)
to every input; used to instantiate theorems at concrete values. -/
def constClassifier (α : Type) : BinaryClassifier α where
  proba0 := fun _ => 1 / 4
  proba1 := fun _ => 3 / 4
  nonneg0 := fun _ => by norm_num
  nonneg1 := fun _ => by norm_num
  sum_one := fun _ => by norm_num

/-- A concrete scaler with zero means and unit scales. -/
def unitScaler : Scaler := ⟨[0, 0, 0, 0], [1, 1, 1, 1]⟩

/-- A concrete stand-in for the sklearn fitting procedure, returning the
constant classifier whatever the data. -/
def constFit : List (String × List ℚ) → List ℚ → GBParams → GbModel :=
  fun _ _ _ => constClassifier (List (String × ℚ))

/-- Concrete steps whose first call (the scaler transform) raises. -/
def failingSteps : FallibleSteps :=
  ⟨fun _ => .error "boom",
   fun _ => .ok 0,
   fun _ => .ok (1, 0),
   fun _ => .ok 0,
   fun _ => .ok (1, 0)⟩

/-- Whether `small` is an initial segment of `big`. -/
def leadsChars : List Char → List Char → Bool
  | [], _ => true
  | _ :: _, [] => false
  | c :: cs, d :: ds => c == d && leadsChars cs ds

/-- Whether `small` occurs contiguously inside the second list. -/
def occursIn (small : List Char) : List Char → Bool
  | [] => leadsChars small []
  | c :: cs => leadsChars small (c :: cs) || occursIn small cs

/-- The two-class probability vector's maximum, unfolded. -/
theorem probaMax_eq {α : Type} (c : BinaryClassifier α) (x : α) :
    c.probaMax x = max (c.proba0 x) (c.proba1 x) := rfl

/-- The displayed confidence is at least one half: the two class
probabilities sum to one, so their maximum is at least their average. -/
theorem probaMax_ge_half {α : Type} (c : BinaryClassifier α) (x : α) :
    1 / 2 ≤ c.probaMax x := by
  rw [probaMax_eq]
  have h := c.sum_one x
  rcases le_total (c.proba0 x) (c.proba1 x) with hle | hle
  · rw [max_eq_right hle]; linarith
  · rw [max_eq_left hle]; linarith

/-- The displayed confidence is at most one: each class probability is
bounded by the sum. -/
theorem probaMax_le_one {α : Type} (c : BinaryClassifier α) (x : α) :
    c.probaMax x ≤ 1 := by
  rw [probaMax_eq]
  have h := c.sum_one x
  have h0 := c.nonneg0 x
  have h1 := c.nonneg1 x
  exact max_le (by linarith) (by linarith)

/-- The argmax label is always 0 or 1. -/
theorem predict_mem {α : Type} (c : BinaryClassifier α) (x : α) :
    c.predict x = 0 ∨ c.predict x = 1 := by
  unfold BinaryClassifier.predict
  split
  · exact Or.inr rfl
  · exact Or.inl rfl

/-- When both loads succeed, the script renders the results built from the
smoking model applied to the scaled row and the drinking model applied to
the raw row. -/
theorem runScript_loaded_eq (rf : RfModel) (sc : Scaler) (gb : GbModel) (i : Inputs) :
    runScript (.ok rf) (.ok sc) gb i =
      .predicted (.results
        ⟨rf.predict (sc.transform (input_data i)),
         rf.probaMax (sc.transform (input_data i)),
         gb.predict (input_data i),
         gb.probaMax (input_data i)⟩
        (smokingMetric
          ⟨rf.predict (sc.transform (input_data i)),
           rf.probaMax (sc.transform (input_data i)),
           gb.predict (input_data i),
           gb.probaMax (input_data i)⟩)
        (drinkingMetric
          ⟨rf.predict (sc.transform (input_data i)),
           rf.probaMax (sc.transform (input_data i)),
           gb.predict (input_data i),
           gb.probaMax (input_data i)⟩)) := rfl

/-- Within a session, once the cache holds a model, every further re-run
returns it and the fit body never runs again. -/
theorem sessionTrace_cached
    (fit : List (String × List ℚ) → List ℚ → GBParams → GbModel) (M : GbModel) :
    ∀ n : ℕ, sessionTrace fit n (some M) = (List.replicate n M, 0) := by
  intro n
  induction n with
  | zero => rfl
  | succ k ih =>
    simp [sessionTrace, cacheResourceCall, ih, List.replicate_succ]

/-- A fresh session of at least one re-run fits once and hands every re-run
the same model. -/
theorem sessionTrace_fresh
    (fit : List (String × List ℚ) → List ℚ → GBParams → GbModel) (k : ℕ) :
    sessionTrace fit (k + 1) none =
      (List.replicate (k + 1) (train_inline_drinking_model fit), 1) := by
  simp [sessionTrace, cacheResourceCall, sessionTrace_cached, List.replicate_succ]

/-- Claim C1: for every four-field input within the declared ranges, when the
artifacts loaded successfully, each target's prediction has a label in
\x7b0, 1\x7d and a confidence equal to the maximum entry of that classifier's
two-class probability vector, hence lying in [1/2, 1]. -/
theorem C1_label_and_confidence (rf : RfModel) (sc : Scaler) (gb : GbModel)
    (i : Inputs) (_h : inRanges i) :
    ∃ v : PredValues,
      runScript (.ok rf) (.ok sc) gb i =
        .predicted (.results v (smokingMetric v) (drinkingMetric v)) ∧
      (v.smoking_pred = 0 ∨ v.smoking_pred = 1) ∧
      v.smoking_prob = max (rf.predict_proba (sc.transform (input_data i))).1
          (rf.predict_proba (sc.transform (input_data i))).2 ∧
      1 / 2 ≤ v.smoking_prob ∧ v.smoking_prob ≤ 1 ∧
      (v.drinking_pred = 0 ∨ v.drinking_pred = 1) ∧
      v.drinking_prob = max (gb.predict_proba (input_data i)).1
          (gb.predict_proba (input_data i)).2 ∧
      1 / 2 ≤ v.drinking_prob ∧ v.drinking_prob ≤ 1 := by
  refine ⟨⟨rf.predict (sc.transform (input_data i)),
           rf.probaMax (sc.transform (input_data i)),
           gb.predict (input_data i),
           gb.probaMax (input_data i)⟩,
    rfl, predict_mem rf _, rfl, probaMax_ge_half rf _, probaMax_le_one rf _,
    predict_mem gb _, rfl, probaMax_ge_half gb _, probaMax_le_one gb _⟩

/-- Claim C1 witness: the default input is in range and the property holds
there for concrete artifacts. -/
theorem C1_label_and_confidence_witness :
    inRanges default_inputs ∧
    (∃ v : PredValues,
      runScript (.ok (constClassifier (List ℚ))) (.ok unitScaler)
          (constClassifier (List (String × ℚ))) default_inputs =
        .predicted (.results v (smokingMetric v) (drinkingMetric v)) ∧
      (v.smoking_pred = 0 ∨ v.smoking_pred = 1) ∧
      v.smoking_prob = max
          ((constClassifier (List ℚ)).predict_proba
            (unitScaler.transform (input_data default_inputs))).1
          ((constClassifier (List ℚ)).predict_proba
            (unitScaler.transform (input_data default_inputs))).2 ∧
      1 / 2 ≤ v.smoking_prob ∧ v.smoking_prob ≤ 1 ∧
      (v.drinking_pred = 0 ∨ v.drinking_pred = 1) ∧
      v.drinking_prob = max
          ((constClassifier (List (String × ℚ))).predict_proba (input_data default_inputs)).1
          ((constClassifier (List (String × ℚ))).predict_proba (input_data default_inputs)).2 ∧
      1 / 2 ≤ v.drinking_prob ∧ v.drinking_prob ≤ 1) :=
  ⟨by decide, C1_label_and_confidence _ _ _ _ (by decide)⟩

/-- Claim C2: for every prediction request, the smoking model is invoked on
the scaler-transformed feature row while the drinking model is invoked on
the raw, unscaled feature row. -/
theorem C2_smoking_scaled_drinking_raw (rf : RfModel) (sc : Scaler) (gb : GbModel)
    (i : Inputs) :
    runScript (.ok rf) (.ok sc) gb i =
      .predicted (.results
        ⟨rf.predict (sc.transform (input_data i)),
         rf.probaMax (sc.transform (input_data i)),
         gb.predict (input_data i),
         gb.probaMax (input_data i)⟩
        (smokingMetric
          ⟨rf.predict (sc.transform (input_data i)),
           rf.probaMax (sc.transform (input_data i)),
           gb.predict (input_data i),
           gb.probaMax (input_data i)⟩)
        (drinkingMetric
          ⟨rf.predict (sc.transform (input_data i)),
           rf.probaMax (sc.transform (input_data i)),
           gb.predict (input_data i),
           gb.probaMax (input_data i)⟩)) :=
  runScript_loaded_eq rf sc gb i

/-- Claim C3 counterexample: the script names and loads two artifact files,
not three; the drinking model is trained inline from no file. -/
theorem C3_counterexample_two_files :
    artifact_paths = ["rf_smoking_model.pkl", "scaler.pkl"] ∧
    artifact_paths.length = 2 ∧ artifact_paths.length ≠ 3 := by
  refine ⟨rfl, rfl, by decide⟩

/-- Claim C3 (amended): if either of the two named artifact files is missing
at load time, the script presents the single error string naming both
expected files, and the boolean gate disables all downstream prediction for
both targets without crashing the process. -/
theorem C3_missing_artifact_disables (loadScaler : Except PyExn Scaler)
    (rf : RfModel) (gb : GbModel) (i : Inputs) (p q : String) :
    runScript (.error (.fileNotFoundError p)) loadScaler gb i =
      .loadError load_error_message ∧
    runScript (.ok rf) (.error (.fileNotFoundError q)) gb i =
      .loadError load_error_message ∧
    occursIn smoking_model_path.toList load_error_message.toList = true ∧
    occursIn scaler_path.toList load_error_message.toList = true :=
  ⟨rfl, rfl, by decide, by decide⟩

/-- Claim C4: every exception raised inside the transform/predict sequence is
caught by the single broad handler and surfaced as the one generic error
string with the exception's text interpolated; the block always renders
either the results or that generic message, so no exception escapes and no
failure is classified by cause. -/
theorem C4_broad_handler (a : FallibleSteps) (df : List (String × ℚ)) :
    ((∃ v, predictionBlock a df = .results v (smokingMetric v) (drinkingMetric v)) ∨
      (∃ e, predictionBlock a df = .predictionError (prediction_error_text e))) ∧
    (∀ e, a.transform df = .error e →
      predictionBlock a df = .predictionError (prediction_error_text e)) ∧
    (∀ xs e, a.transform df = .ok xs → a.rf_predict xs = .error e →
      predictionBlock a df = .predictionError (prediction_error_text e)) ∧
    (∀ xs p e, a.transform df = .ok xs → a.rf_predict xs = .ok p →
      a.rf_predict_proba xs = .error e →
      predictionBlock a df = .predictionError (prediction_error_text e)) ∧
    (∀ xs p pr e, a.transform df = .ok xs → a.rf_predict xs = .ok p →
      a.rf_predict_proba xs = .ok pr → a.gb_predict df = .error e →
      predictionBlock a df = .predictionError (prediction_error_text e)) ∧
    (∀ xs p pr q e, a.transform df = .ok xs → a.rf_predict xs = .ok p →
      a.rf_predict_proba xs = .ok pr → a.gb_predict df = .ok q →
      a.gb_predict_proba df = .error e →
      predictionBlock a df = .predictionError (prediction_error_text e)) := by
  refine ⟨?_, ?_, ?_, ?_, ?_, ?_⟩
  · cases h : computePreds a df with
    | ok v => exact Or.inl ⟨v, by simp [predictionBlock, h]⟩
    | error e => exact Or.inr ⟨e, by simp [predictionBlock, h]⟩
  · intro e h1
    simp [predictionBlock, computePreds, h1]
  · intro xs e h1 h2
    simp [predictionBlock, computePreds, h1, h2]
  · intro xs p e h1 h2 h3
    simp [predictionBlock, computePreds, h1, h2, h3]
  · intro xs p pr e h1 h2 h3 h4
    simp [predictionBlock, computePreds, h1, h2, h3, h4]
  · intro xs p pr q e h1 h2 h3 h4 h5
    simp [predictionBlock, computePreds, h1, h2, h3, h4, h5]

/-- Claim C4 witness: with a transform step that raises, the block renders
exactly the generic error message with the exception's text. -/
theorem C4_broad_handler_witness :
    predictionBlock failingSteps (input_data default_inputs) =
      .predictionError (prediction_error_text "boom") :=
  (C4_broad_handler failingSteps (input_data default_inputs)).2.1 "boom" rfl

/-- Claim C5: the inline drinking model is fit exactly once per session,
memoized across re-runs, from the fixed four-row four-feature hard-coded
dataset with fixed tree count, depth and random seed, so any two sessions
see the same model and the same input yields the same label and the same
probability vector. -/
theorem C5_inline_model_memoized_deterministic
    (fit : List (String × List ℚ) → List ℚ → GBParams → GbModel)
    (n m : ℕ) (hn : 0 < n) (hm : 0 < m) (x : List (String × ℚ)) :
    sessionFitCount fit n = 1 ∧
    sessionModels fit n = List.replicate n (train_inline_drinking_model fit) ∧
    train_inline_drinking_model fit = fit inline_X inline_y inline_params ∧
    inline_X.map Prod.fst = feature_columns ∧
    (inline_X.map fun c => c.2.length) = [4, 4, 4, 4] ∧
    inline_y = [1, 1, 0, 0] ∧
    inline_params = ⟨10, 2, 42⟩ ∧
    (∀ m1 m2 : GbModel, m1 ∈ sessionModels fit n → m2 ∈ sessionModels fit m →
      m1.predict x = m2.predict x ∧ m1.predict_proba x = m2.predict_proba x) := by
  obtain ⟨k, rfl⟩ : ∃ k, n = k + 1 := ⟨n - 1, (Nat.succ_pred_eq_of_pos hn).symm⟩
  obtain ⟨l, rfl⟩ : ∃ l, m = l + 1 := ⟨m - 1, (Nat.succ_pred_eq_of_pos hm).symm⟩
  have hM1 : sessionModels fit (k + 1) =
      List.replicate (k + 1) (train_inline_drinking_model fit) := by
    simp [sessionModels, sessionTrace_fresh]
  have hM2 : sessionModels fit (l + 1) =
      List.replicate (l + 1) (train_inline_drinking_model fit) := by
    simp [sessionModels, sessionTrace_fresh]
  refine ⟨?_, hM1, rfl, by decide, by decide, by decide, rfl, ?_⟩
  · simp [sessionFitCount, sessionTrace_fresh]
  · intro m1 m2 h1 h2
    rw [hM1] at h1
    rw [hM2] at h2
    rw [List.eq_of_mem_replicate h1, List.eq_of_mem_replicate h2]
    exact ⟨rfl, rfl⟩

/-- Claim C5 witness: two concrete fresh sessions of two and three re-runs
each fit once and agree. -/
theorem C5_inline_model_memoized_deterministic_witness :
    0 < 2 ∧ 0 < 3 ∧ sessionFitCount constFit 2 = 1 ∧
    sessionModels constFit 2 = List.replicate 2 (train_inline_drinking_model constFit) :=
  ⟨by decide, by decide,
    (C5_inline_model_memoized_deterministic constFit 2 3 (by decide) (by decide)
      (input_data default_inputs)).1,
    (C5_inline_model_memoized_deterministic constFit 2 3 (by decide) (by decide)
      (input_data default_inputs)).2.1⟩

/-- Claim C6: each boundary input at the declared minima and maxima of the
form fields lies in the declared ranges, and the transform and predict
steps accept it: the script reaches the results rendering, raising nothing. -/
theorem C6_boundary_inputs_accepted (rf : RfModel) (sc : Scaler) (gb : GbModel) :
    boundary_inputs.all inRangesB = true ∧
    boundary_inputs.all
      (fun b => (runScript (.ok rf) (.ok sc) gb b).isOkPrediction) = true :=
  ⟨by decide, rfl⟩

/-- Claim C8: every feature row passed to transform and predict carries
exactly the columns age, BMI, gamma_GTP, hemoglobin in that fixed order,
matching the column order and names the inline drinking model was fit
with. -/
theorem C8_feature_columns_match (i : Inputs) :
    (input_data i).map Prod.fst = feature_columns ∧
    inline_X.map Prod.fst = feature_columns ∧
    feature_columns = ["age", "BMI", "gamma_GTP", "hemoglobin"] :=
  ⟨rfl, rfl, rfl⟩

/-- Claim C9: the result renderer maps label 1 to the positive display
string and label 0 to the negative display string for each target,
annotating each with the confidence rounded to two decimals. -/
theorem C9_result_renderer (sprob dprob : ℚ) (a b : ℕ) :
    (smokingMetric ⟨1, sprob, a, dprob⟩).value = "🚬 Smoker" ∧
    (smokingMetric ⟨0, sprob, a, dprob⟩).value = "✅ Non-Smoker" ∧
    (drinkingMetric ⟨a, sprob, 1, dprob⟩).value = "🍷 Drinker" ∧
    (drinkingMetric ⟨a, sprob, 0, dprob⟩).value = "✅ Non-Drinker" ∧
    (smokingMetric ⟨a, sprob, b, dprob⟩).delta = "Confidence: " ++ fmt2 sprob ∧
    (drinkingMetric ⟨a, sprob, b, dprob⟩).delta = "Confidence: " ++ fmt2 dprob :=
  ⟨rfl, rfl, rfl, rfl, rfl, rfl⟩

/-- Claim C10: the artifact-load handler catches only FileNotFoundError; any
other exception raised while deserializing either artifact propagates
uncaught instead of producing the disabled/error state. -/
theorem C10_only_missing_file_caught (msg p : String) (rf : RfModel)
    (loadScaler : Except PyExn Scaler) (gb : GbModel) (i : Inputs) :
    runScript (.error (.otherError msg)) loadScaler gb i =
      .crashed (.otherError msg) ∧
    runScript (.ok rf) (.error (.otherError msg)) gb i =
      .crashed (.otherError msg) ∧
    runScript (.error (.fileNotFoundError p)) loadScaler gb i =
      .loadError load_error_message :=
  ⟨rfl, rfl, rfl⟩
